import Mathlib

/-!
Verification of the Linky Home Assistant integration
(`custom_components/linky`): a shallow embedding of the statistics merge
(`coordinator.py`), the refresh cycle (`_async_update_data`), the
historical import (`import_statistics`), the service-call validation
(`__init__.py`), the config flow (`config_flow.py`) and the sensor
availability table (`sensor.py`), together with theorems about the
properties the documentation states.

Conventions: dates are modelled as day ordinals (days since the epoch),
timestamps as seconds since the epoch (so midnight of day `d` is
`86400 * d`), and energy values as integers (watt-hours); Python `None`
becomes `Option.none`, a raised exception becomes an explicit error
constructor.
-/

namespace Linky

/-- One daily interval reading of a `MeteringData` series:
`reading.date` (a day ordinal) and `reading.value` (watt-hours). -/
structure Reading where
  day : Nat
  value : Int
  deriving DecidableEq, Repr

/-- The part of `pylinky.MeteringData` the statistics code reads:
its ordered list of interval readings. -/
structure MeteringDataM where
  interval_reading : List Reading
  deriving DecidableEq, Repr

/-- One external statistic point `{start, state, sum}` as built by
`_insert_statistics` / `import_statistics` (`StatisticData`). -/
structure StatPoint where
  start : Nat
  state : Int
  sum : Int
  deriving DecidableEq, Repr

/-- Midnight of day `d`, as a timestamp: models
`dt_util.as_utc(datetime.combine(reading_date, datetime.min.time()))
.timestamp()`: midnight of day `d`, as a timestamp. -/
def statTime (d : Nat) : Nat := 86400 * d

/-- The guard `if last_stats_time and stat_time.timestamp() <= last_stats_time`
of `coordinator.py` (lines 228 and 253): skip a reading whose day-start
timestamp is at or before the recorded lower bound, when there is one. -/
def skipReading (last_stats_time : Option Nat) (t : Nat) : Bool :=
  match last_stats_time with
  | none => false
  | some b => t ≤ b

/-- The per-reading loop shared by both series of `_insert_statistics`
(lines 221-241 and 246-266): walk the readings in order, drop the ones
`skipReading` rejects, add each kept value to the running sum and emit a
`StatPoint` carrying the updated sum. -/
def processReadings (last_stats_time : Option Nat) (sum0 : Int) :
    List Reading → List StatPoint
  | [] => []
  | r :: rs =>
    if skipReading last_stats_time (statTime r.day) then
      processReadings last_stats_time sum0 rs
    else
      { start := statTime r.day, state := r.value, sum := sum0 + r.value } ::
        processReadings last_stats_time (sum0 + r.value) rs

/-- The guard `if daily_consumption and daily_consumption.interval_reading:`
around each loop: an absent series, or one with no readings, contributes
no points. -/
def processSeries (last_stats_time : Option Nat) (sum0 : Int)
    (series : Option MeteringDataM) : List StatPoint :=
  match series with
  | none => []
  | some m =>
    if m.interval_reading.isEmpty then []
    else processReadings last_stats_time sum0 m.interval_reading

/-- Embedding of `_insert_statistics` (coordinator.py lines 147-281), with the two
recorder reads passed in: `last_stat` is the most recent stored
consumption point, `last_prod_stat` the most recent stored production
point.  When `last_stat` is absent both sums start at 0 and no lower
bound is applied (lines 196-200); when it is present, its timestamp is
the lower bound used for BOTH loops, its sum seeds the consumption
accumulator, and the production accumulator is seeded from
`last_prod_stat` (lines 201-216).  Returns the consumption and
production batches that would be submitted. -/
def insertStatistics (last_stat last_prod_stat : Option StatPoint)
    (daily_consumption daily_production : Option MeteringDataM) :
    List StatPoint × List StatPoint :=
  match last_stat with
  | none =>
    (processSeries none 0 daily_consumption,
     processSeries none 0 daily_production)
  | some p =>
    let production_sum : Int :=
      match last_prod_stat with
      | none => 0
      | some q => q.sum
    (processSeries (some p.start) p.sum daily_consumption,
     processSeries (some p.start) production_sum daily_production)

/-- The external-statistics store, one list of stored points per
statistic id (`linky:<prm>_energy_consumption` and
`linky:<prm>_energy_production`), in insertion order. -/
structure StatsStore where
  consumption : List StatPoint
  production : List StatPoint
  deriving DecidableEq, Repr

/-- Model of `get_last_statistics(hass, 1, statistic_id, True, set())`: the most
recent stored point of a series, i.e. the last one appended. -/
def lastStatOf (stored : List StatPoint) : Option StatPoint :=
  stored.getLast?

/-- One full `_insert_statistics` call against the store: read the last
stored point of each series, compute the batches, and append each
non-empty batch via `async_add_external_statistics` (an empty batch is
not submitted, which appends nothing either way). -/
def insertStatisticsStep (store : StatsStore)
    (daily_consumption daily_production : Option MeteringDataM) : StatsStore :=
  let batches := insertStatistics (lastStatOf store.consumption)
    (lastStatOf store.production) daily_consumption daily_production
  { consumption := store.consumption ++ batches.1
    production := store.production ++ batches.2 }

/-- The outcome of one awaited client fetch: a value (possibly `None`),
a generic `APIError`, or an `AuthenticationError`. -/
inductive Fetch where
  | ok (m : Option MeteringDataM)
  | apiErr
  | authErr
  deriving DecidableEq, Repr

/-- One guarded fetch of `_async_update_data` (e.g. lines 78-85): an
`AuthenticationError` is re-raised (modelled as `Except.error`), an
`APIError` is logged and leaves the field absent, a returned value is
stored as-is. -/
def fetchField : Fetch → Except Unit (Option MeteringDataM)
  | .ok m => .ok m
  | .apiErr => .ok none
  | .authErr => .error ()

/-- The field a fetch leaves in the snapshot when it does not raise an
authentication error. -/
def fieldOf : Fetch → Option MeteringDataM
  | .ok m => m
  | .apiErr => none
  | .authErr => none

/-- The `LinkyData` snapshot: up to five optional metering series. -/
structure LinkyDataM where
  daily_consumption : Option MeteringDataM
  load_curve : Option MeteringDataM
  max_power : Option MeteringDataM
  daily_production : Option MeteringDataM
  production_load_curve : Option MeteringDataM
  deriving DecidableEq, Repr

/-- The outcome of the statistics insertion awaited at coordinator.py
lines 136-143: it returns, raises `KeyError` (recorder unavailable), or
raises an exception of another type. -/
inductive InsertOutcome where
  | ok
  | keyError
  | otherError
  deriving DecidableEq, Repr

/-- How one `_async_update_data` cycle ends: a snapshot, the
`UpdateFailed("Authentication failed: ...")` of line 127, the
`UpdateFailed("Failed to fetch any consumption data from API")` of
line 133, or an uncaught exception escaping the statistics insertion. -/
inductive CycleResult where
  | success (d : LinkyDataM)
  | authFailed
  | noData
  | insertRaised
  deriving DecidableEq, Repr

/-- Embedding of `_async_update_data` (coordinator.py lines 66-145): the five fetches
in order, each aborting the cycle on an authentication error; then the
no-data check on the three consumption-side fields; then the statistics
insertion guarded by `except KeyError` only.  Returns how the cycle ends
together with the statistics store afterwards. -/
def asyncUpdateData (r1 r2 r3 r4 r5 : Fetch) (ins : InsertOutcome)
    (store : StatsStore) : CycleResult × StatsStore :=
  match fetchField r1 with
  | .error _ => (.authFailed, store)
  | .ok daily_consumption =>
  match fetchField r2 with
  | .error _ => (.authFailed, store)
  | .ok load_curve =>
  match fetchField r3 with
  | .error _ => (.authFailed, store)
  | .ok max_power =>
  match fetchField r4 with
  | .error _ => (.authFailed, store)
  | .ok daily_production =>
  match fetchField r5 with
  | .error _ => (.authFailed, store)
  | .ok production_load_curve =>
  if daily_consumption.isNone && load_curve.isNone && max_power.isNone then
    (.noData, store)
  else
    let snapshot : LinkyDataM :=
      { daily_consumption := daily_consumption
        load_curve := load_curve
        max_power := max_power
        daily_production := daily_production
        production_load_curve := production_load_curve }
    match ins with
    | .keyError => (.success snapshot, store)
    | .ok => (.success snapshot,
              insertStatisticsStep store daily_consumption daily_production)
    | .otherError => (.insertRaised, store)

/-- One fetch-and-accumulate block of `import_statistics` (coordinator.py
lines 338-364 and 367-393): an authentication error propagates, an
`APIError` is logged and yields an empty batch, and a returned series is
walked with NO lower bound (the import loops have no skip check). -/
def importFetch (f : Fetch) (sum0 : Int) : Except Unit (List StatPoint) :=
  match f with
  | .authErr => .error ()
  | .apiErr => .ok []
  | .ok m => .ok (processSeries none sum0 m)

/-- Embedding of `import_statistics(start, end)` (coordinator.py lines
283-408), with
the two recorder reads and the two fetch outcomes passed in: each
series' accumulator is seeded from that series' own last stored sum
(lines 321-333), every fetched reading is emitted unconditionally, and
the resulting batches are returned (submitted only if the whole call
raised nothing). -/
def importStatisticsM (last_stat last_prod_stat : Option StatPoint)
    (consFetch prodFetch : Fetch) :
    Except Unit (List StatPoint × List StatPoint) :=
  let consumption_sum : Int :=
    match last_stat with
    | some p => p.sum
    | none => 0
  let production_sum : Int :=
    match last_prod_stat with
    | some q => q.sum
    | none => 0
  match importFetch consFetch consumption_sum with
  | .error e => .error e
  | .ok consumption_statistics =>
    match importFetch prodFetch production_sum with
    | .error e => .error e
    | .ok production_statistics =>
      .ok (consumption_statistics, production_statistics)

/-- The result of the `import_historical_data` service handler:
a `ServiceValidationError`, or a validated range handed to
`coordinator.import_statistics`. -/
inductive ServiceResult where
  | validationError (msg : String)
  | imported (startDate endDate : Nat)
  deriving DecidableEq, Repr

/-- Embedding of `handle_import_historical_data` up to the `import_statistics` call
(`__init__.py` lines 72-92): the end date defaults to today, then
`start_date > end_date` and `end_date > today` are rejected, in that
order, before any fetch. -/
def handleImportHistoricalData (today start_date : Nat)
    (end_date? : Option Nat) : ServiceResult :=
  let end_date := end_date?.getD today
  if start_date > end_date then
    .validationError "start_date must be before or equal to end_date"
  else if end_date > today then
    .validationError "end_date cannot be in the future"
  else
    .imported start_date end_date

/-- The outcome of `AsyncLinkyClient(token=token)` in the user step of
the config flow: a PRM list, an `InvalidTokenError`, or another
caught error (`OSError`/`RuntimeError`/`ValueError`). -/
inductive TokenValidation where
  | ok (prms : List String)
  | invalidToken
  | otherError
  deriving DecidableEq, Repr

/-- Where one config-flow step ends up: an entry is created, the flow
aborts as already configured, the user form is shown again (with an
error under the `base` key), or the PRM-selection form is shown. -/
inductive FlowResultM where
  | createEntry (token prm : String)
  | abortAlreadyConfigured
  | showFormUser (errorBase : Option String)
  | showFormSelectPrm
  deriving DecidableEq, Repr

/-- Embedding of `_create_entry` (config_flow.py lines 118-130):
`_abort_if_unique_id_configured` aborts with "already_configured" when
the PRM is already a configured unique id, otherwise the entry
`{token, prm}` is created. -/
def createEntryStep (configured : List String) (token prm : String) :
    FlowResultM :=
  if prm ∈ configured then .abortAlreadyConfigured
  else .createEntry token prm

/-- Embedding of `async_step_user` with a submitted token (config_flow.py lines
43-64): on success, exactly one PRM goes straight to `_create_entry`
(an `AbortFlow` raised there is re-raised), any other count goes to the
selection step; an invalid token re-shows the form with
"invalid_token", another caught error with "unknown". -/
def asyncStepUser (configured : List String) (token : String)
    (validation : TokenValidation) : FlowResultM :=
  match validation with
  | .ok prms =>
    if prms.length = 1 then createEntryStep configured token (prms.getD 0 "")
    else .showFormSelectPrm
  | .invalidToken => .showFormUser (some "invalid_token")
  | .otherError => .showFormUser (some "unknown")

/-- The projection fields of one `LinkySensorEntityDescription` that
availability depends on. -/
structure SensorDescriptionM where
  key : String
  available_fn : LinkyDataM → Bool

/-- The `available_fn` column of `SENSOR_DESCRIPTIONS` (sensor.py lines
51-156): each entry is `data.<series> is not None`. -/
def sensorDescriptions : List SensorDescriptionM :=
  [ { key := "daily_consumption"
      available_fn := fun d => d.daily_consumption.isSome },
    { key := "total_consumption_week"
      available_fn := fun d => d.daily_consumption.isSome },
    { key := "current_power"
      available_fn := fun d => d.load_curve.isSome },
    { key := "max_power"
      available_fn := fun d => d.max_power.isSome },
    { key := "daily_production"
      available_fn := fun d => d.daily_production.isSome },
    { key := "current_production_power"
      available_fn := fun d => d.production_load_curve.isSome } ]

/-- The backing series of each sensor projection, read off the
`value_fn` column of `SENSOR_DESCRIPTIONS`: which snapshot field the
sensor's value is computed from. -/
def backingSeries (key : String) (d : LinkyDataM) : Option MeteringDataM :=
  if key = "daily_consumption" then d.daily_consumption
  else if key = "total_consumption_week" then d.daily_consumption
  else if key = "current_power" then d.load_curve
  else if key = "max_power" then d.max_power
  else if key = "daily_production" then d.daily_production
  else if key = "current_production_power" then d.production_load_curve
  else none

/-- The specification's per-series reading of the incremental merge:
each of the two series takes its lower bound AND its starting sum from
that series' OWN most recent stored point, independently of the other
series; with no prior point the sum starts at 0 and no bound applies.
Written from the claim's words, to be compared with `insertStatistics`. -/
def insertStatisticsPerSeries (last_stat last_prod_stat : Option StatPoint)
    (daily_consumption daily_production : Option MeteringDataM) :
    List StatPoint × List StatPoint :=
  (processSeries (last_stat.map StatPoint.start)
    (match last_stat with | some p => p.sum | none => 0) daily_consumption,
   processSeries (last_prod_stat.map StatPoint.start)
    (match last_prod_stat with | some q => q.sum | none => 0) daily_production)

/-- The claim's description of one historical-import series: seed the
accumulator, then emit a point for every reading unconditionally.
Written from the claim's words, to be compared with the import loops. -/
def importAllReadings (sum0 : Int) : List Reading → List StatPoint
  | [] => []
  | r :: rs =>
    { start := statTime r.day, state := r.value, sum := sum0 + r.value } ::
      importAllReadings (sum0 + r.value) rs

/-! ### Helper lemmas about the merge loops -/

theorem statTime_mono {a b : Nat} (h : a ≤ b) : statTime a ≤ statTime b := by
  unfold statTime
  omega

theorem processSeries_some (b? : Option Nat) (s : Int) (m : MeteringDataM) :
    processSeries b? s (some m) = processReadings b? s m.interval_reading := by
  rcases h : m.interval_reading with _ | ⟨r, rs⟩
  · simp [processSeries, h, processReadings]
  · simp [processSeries, h]

/-- A consumption-bounded run emits nothing exactly when every reading
sits at or before the bound. -/
theorem processReadings_eq_nil_iff (b : Nat) (s : Int) (rs : List Reading) :
    processReadings (some b) s rs = [] ↔ ∀ r ∈ rs, statTime r.day ≤ b := by
  induction rs generalizing s with
  | nil => simp [processReadings]
  | cons r rs ih =>
    by_cases h : statTime r.day ≤ b
    · simp [processReadings, skipReading, h, ih s]
    · simp [processReadings, skipReading, h]

theorem processReadings_none_eq_nil_iff (s : Int) (rs : List Reading) :
    processReadings none s rs = [] ↔ rs = [] := by
  cases rs with
  | nil => simp [processReadings]
  | cons r rs => simp [processReadings, skipReading]

theorem processReadings_ne_nil (b? : Option Nat) (s : Int) (rs : List Reading)
    (h : processReadings b? s rs ≠ []) : rs ≠ [] := by
  intro hn
  subst hn
  exact h rfl

/-- An unbounded run is exactly the claim's emit-everything loop. -/
theorem processReadings_none_eq_importAll (s : Int) (rs : List Reading) :
    processReadings none s rs = importAllReadings s rs := by
  induction rs generalizing s with
  | nil => rfl
  | cons r rs ih => simp [processReadings, importAllReadings, skipReading, ih]

/-- Dropping the readings the bound rejects changes nothing: they
contribute neither points nor sum. -/
theorem processReadings_filter (b : Nat) (s : Int) (rs : List Reading) :
    processReadings (some b) s rs
      = processReadings (some b) s
          (rs.filter fun r => decide (b < statTime r.day)) := by
  induction rs generalizing s with
  | nil => rfl
  | cons r rs ih =>
    by_cases h : statTime r.day ≤ b
    · have hd : ¬ b < statTime r.day := by omega
      simp [processReadings, skipReading, h, hd, ih s]
    · have hd : b < statTime r.day := by omega
      simp [processReadings, skipReading, h, hd, ih (s + r.value)]

/-- With chronologically ordered readings, the last emitted point's
timestamp dominates every reading of the run. -/
theorem processReadings_getLast_ge (b? : Option Nat) (rs : List Reading)
    (hs : rs.Pairwise (fun a b => a.day ≤ b.day)) :
    ∀ (s : Int) (q : StatPoint),
      (processReadings b? s rs).getLast? = some q →
      ∀ r ∈ rs, statTime r.day ≤ q.start := by
  induction rs with
  | nil =>
    intro s q hq
    simp [processReadings] at hq
  | cons r rs ih =>
    rw [List.pairwise_cons] at hs
    obtain ⟨hr, hs'⟩ := hs
    intro s q hq x hx
    rw [processReadings] at hq
    by_cases hskip : skipReading b? (statTime r.day) = true
    · rw [if_pos hskip] at hq
      have hne : rs ≠ [] := by
        intro hnil
        rw [hnil] at hq
        simp [processReadings] at hq
      obtain ⟨y, hy⟩ := List.exists_mem_of_ne_nil rs hne
      rcases List.mem_cons.mp hx with hxr | hxs
      · subst hxr
        exact le_trans (statTime_mono (hr y hy)) (ih hs' s q hq y hy)
      · exact ih hs' s q hq x hxs
    · rw [if_neg hskip] at hq
      cases hrest : processReadings b? (s + r.value) rs with
      | nil =>
        rw [hrest, List.getLast?_singleton] at hq
        have hqs : q.start = statTime r.day := by
          rw [← Option.some.inj hq]
        rcases List.mem_cons.mp hx with hxr | hxs
        · rw [hxr, hqs]
        · cases b? with
          | none =>
            rw [processReadings_none_eq_nil_iff] at hrest
            rw [hrest] at hxs
            simp at hxs
          | some b =>
            have hall := (processReadings_eq_nil_iff b (s + r.value) rs).mp hrest
            have hb : b < statTime r.day := by
              simp [skipReading] at hskip
              omega
            rw [hqs]
            exact le_trans (hall x hxs) (le_of_lt hb)
      | cons c cs =>
        rw [hrest, List.getLast?_cons_cons, ← hrest] at hq
        have hmem := ih hs' (s + r.value) q hq
        have hne : rs ≠ [] :=
          processReadings_ne_nil b? (s + r.value) rs (by rw [hrest]; simp)
        rcases List.mem_cons.mp hx with hxr | hxs
        · obtain ⟨y, hy⟩ := List.exists_mem_of_ne_nil rs hne
          rw [hxr]
          exact le_trans (statTime_mono (hr y hy)) (hmem y hy)
        · exact hmem x hxs

theorem lastStatOf_append (stored batch : List StatPoint) :
    lastStatOf (stored ++ batch) = (lastStatOf batch).or (lastStatOf stored) := by
  simp [lastStatOf, List.getLast?_append]

/-- A fetch that raises no authentication error yields its field. -/
theorem fetchField_eq (r : Fetch) (h : r ≠ .authErr) :
    fetchField r = .ok (fieldOf r) := by
  cases r with
  | ok m => rfl
  | apiErr => rfl
  | authErr => exact absurd rfl h

/-- Re-running the incremental merge over an already-merged
chronological window appends nothing to the stored consumption
series. -/
theorem insertStep_twice (store : StatsStore) (m : MeteringDataM)
    (dp dp' : Option MeteringDataM)
    (hs : m.interval_reading.Pairwise (fun a b => a.day ≤ b.day)) :
    (insertStatisticsStep (insertStatisticsStep store (some m) dp)
        (some m) dp').consumption
      = (insertStatisticsStep store (some m) dp).consumption := by
  rcases h0 : lastStatOf store.consumption with _ | p <;>
    simp only [lastStatOf] at h0
  · cases hcs : processReadings none 0 m.interval_reading with
    | nil =>
      have hrs : m.interval_reading = [] :=
        (processReadings_none_eq_nil_iff 0 m.interval_reading).mp hcs
      simp [insertStatisticsStep, insertStatistics, h0, processSeries_some,
        hcs, hrs, processReadings, lastStatOf_append, lastStatOf, Option.or]
    | cons c cs =>
      rcases hql : (c :: cs).getLast? with _ | q
      · simp [List.getLast?_eq_none_iff] at hql
      · have hge := processReadings_getLast_ge none m.interval_reading hs 0 q
          (by rw [hcs]; exact hql)
        have hnil2 : processReadings (some q.start) q.sum m.interval_reading
            = [] :=
          (processReadings_eq_nil_iff q.start q.sum m.interval_reading).mpr hge
        simp [insertStatisticsStep, insertStatistics, h0, processSeries_some,
          hcs, lastStatOf_append, lastStatOf, hql, hnil2, Option.or]
  · cases hcs : processReadings (some p.start) p.sum m.interval_reading with
    | nil =>
      simp [insertStatisticsStep, insertStatistics, h0, processSeries_some,
        hcs, lastStatOf_append, lastStatOf, Option.or]
    | cons c cs =>
      rcases hql : (c :: cs).getLast? with _ | q
      · simp [List.getLast?_eq_none_iff] at hql
      · have hge := processReadings_getLast_ge (some p.start)
          m.interval_reading hs p.sum q (by rw [hcs]; exact hql)
        have hnil2 : processReadings (some q.start) q.sum m.interval_reading
            = [] :=
          (processReadings_eq_nil_iff q.start q.sum m.interval_reading).mpr hge
        simp [insertStatisticsStep, insertStatistics, h0, processSeries_some,
          hcs, lastStatOf_append, lastStatOf, hql, hnil2, Option.or]

/-! ### Claim theorems -/

/-- C1: the incremental merge skips every fetched daily reading whose
day-start timestamp is at or before the prior stored point's timestamp
(boundary equality included) — removing those readings changes neither
the emitted points nor the running sums — and running the merge twice
over the same chronologically ordered window counts each day exactly
once: the second run appends nothing to the stored consumption
series. -/
theorem insert_statistics_skip_and_idempotent :
    (∀ (p : StatPoint) (lastP : Option StatPoint) (m : MeteringDataM)
        (dp : Option MeteringDataM),
      (insertStatistics (some p) lastP (some m) dp).1
        = (insertStatistics (some p) lastP
            (some ⟨m.interval_reading.filter
              fun r => decide (p.start < statTime r.day)⟩) dp).1)
    ∧ (∀ (store : StatsStore) (m : MeteringDataM)
        (dp dp' : Option MeteringDataM),
        m.interval_reading.Pairwise (fun a b => a.day ≤ b.day) →
        (insertStatisticsStep (insertStatisticsStep store (some m) dp)
            (some m) dp').consumption
          = (insertStatisticsStep store (some m) dp).consumption) := by
  constructor
  · intro p lastP m dp
    simp [insertStatistics, processSeries_some]
    exact processReadings_filter p.start p.sum m.interval_reading
  · exact fun store m dp dp' hs => insertStep_twice store m dp dp' hs

theorem insert_statistics_skip_and_idempotent_witness :
    ([⟨19723, 100⟩, ⟨19724, 120⟩] : List Reading).Pairwise
        (fun a b => a.day ≤ b.day)
    ∧ (insertStatisticsStep
          (insertStatisticsStep ⟨[], []⟩
            (some ⟨[⟨19723, 100⟩, ⟨19724, 120⟩]⟩) none)
          (some ⟨[⟨19723, 100⟩, ⟨19724, 120⟩]⟩) none).consumption
        = (insertStatisticsStep ⟨[], []⟩
            (some ⟨[⟨19723, 100⟩, ⟨19724, 120⟩]⟩) none).consumption :=
  ⟨by decide,
   insert_statistics_skip_and_idempotent.2 ⟨[], []⟩
     ⟨[⟨19723, 100⟩, ⟨19724, 120⟩]⟩ none none (by decide)⟩

/-- C2 (counterexample): the incremental merge is not per-series
independent.  With no prior consumption point but a prior production
point of sum 500 at day 1, a production reading of 100 at day 2 is
emitted with sum 100 by the code (production seeded from 0 because the
consumption side had no prior point) while the per-series reading of
the claim would emit sum 600. -/
theorem insert_statistics_per_series_counterexample :
    insertStatistics none (some ⟨86400, 50, 500⟩) none (some ⟨[⟨2, 100⟩]⟩)
      ≠ insertStatisticsPerSeries none (some ⟨86400, 50, 500⟩) none
          (some ⟨[⟨2, 100⟩]⟩) := by
  decide

/-- C2 (amended): the two series are NOT bounded independently: the
single lower bound for both loops is the consumption series' last
stored timestamp; the production accumulator is seeded from
production's own last stored sum only when a prior consumption point
exists, and otherwise both sums start at 0 and no lower bound is
applied to either series.  Equivalently, the merge behaves like the
per-series algorithm run on a substituted production prior carrying the
consumption timestamp. -/
theorem insert_statistics_shared_bound :
    ∀ (lastP : Option StatPoint) (dc dp : Option MeteringDataM)
      (p q : StatPoint),
      insertStatistics none lastP dc dp
          = insertStatisticsPerSeries none none dc dp
      ∧ insertStatistics (some p) (some q) dc dp
          = insertStatisticsPerSeries (some p)
              (some ⟨p.start, q.state, q.sum⟩) dc dp
      ∧ insertStatistics (some p) none dc dp
          = insertStatisticsPerSeries (some p) (some ⟨p.start, 0, 0⟩) dc dp := by
  intro lastP dc dp p q
  exact ⟨rfl, rfl, rfl⟩

/-- C3 (counterexample): an exception that is not a `KeyError` raised
while inserting statistics is NOT swallowed: with daily consumption
fetched successfully, it escapes `_async_update_data` instead of
returning the snapshot. -/
theorem insert_error_fails_refresh_counterexample :
    (asyncUpdateData (.ok (some ⟨[⟨19723, 100⟩]⟩)) .apiErr .apiErr .apiErr
        .apiErr .otherError ⟨[], []⟩).1 = .insertRaised
    ∧ CycleResult.insertRaised
        ≠ .success ⟨some ⟨[⟨19723, 100⟩]⟩, none, none, none, none⟩ := by
  constructor
  · rfl
  · decide

/-- C3 (amended): after a cycle passes the no-data check, the
statistics sink being unavailable — the `KeyError` raised by the
recorder — is swallowed and logged and the refresh still returns its
snapshot, leaving the store untouched; a successful insertion likewise
returns the snapshot.  Only non-`KeyError` exceptions from the
insertion can fail the refresh. -/
theorem key_error_swallowed :
    ∀ (r1 r2 r3 r4 r5 : Fetch) (store : StatsStore),
      r1 ≠ .authErr → r2 ≠ .authErr → r3 ≠ .authErr → r4 ≠ .authErr →
      r5 ≠ .authErr →
      ¬(fieldOf r1 = none ∧ fieldOf r2 = none ∧ fieldOf r3 = none) →
      asyncUpdateData r1 r2 r3 r4 r5 .keyError store
          = (.success ⟨fieldOf r1, fieldOf r2, fieldOf r3, fieldOf r4,
              fieldOf r5⟩, store)
        ∧ (asyncUpdateData r1 r2 r3 r4 r5 .ok store).1
          = .success ⟨fieldOf r1, fieldOf r2, fieldOf r3, fieldOf r4,
              fieldOf r5⟩ := by
  intro r1 r2 r3 r4 r5 store h1 h2 h3 h4 h5 hnd
  have hcond : ((fieldOf r1).isNone && (fieldOf r2).isNone
      && (fieldOf r3).isNone) = false := by
    cases hf1 : fieldOf r1 <;> cases hf2 : fieldOf r2 <;>
      cases hf3 : fieldOf r3 <;> simp_all
  constructor <;>
    simp [asyncUpdateData, fetchField_eq r1 h1, fetchField_eq r2 h2,
      fetchField_eq r3 h3, fetchField_eq r4 h4, fetchField_eq r5 h5, hcond]

theorem key_error_swallowed_witness :
    ¬(fieldOf (.ok (some ⟨[⟨19723, 100⟩]⟩)) = none
        ∧ fieldOf Fetch.apiErr = none ∧ fieldOf Fetch.apiErr = none)
    ∧ (asyncUpdateData (.ok (some ⟨[⟨19723, 100⟩]⟩)) .apiErr .apiErr .apiErr
          .apiErr .keyError ⟨[], []⟩
        = (.success ⟨some ⟨[⟨19723, 100⟩]⟩, none, none, none, none⟩, ⟨[], []⟩)
      ∧ (asyncUpdateData (.ok (some ⟨[⟨19723, 100⟩]⟩)) .apiErr .apiErr
            .apiErr .apiErr .ok ⟨[], []⟩).1
        = .success ⟨some ⟨[⟨19723, 100⟩]⟩, none, none, none, none⟩) :=
  ⟨by decide,
   key_error_swallowed _ _ _ _ _ _ (by decide) (by decide) (by decide)
     (by decide) (by decide) (by decide)⟩

/-- C4: when the daily-consumption, load-curve and max-power fetches all
fail with non-authentication API errors, the cycle fails with the
no-data error and writes no statistics, whatever the production fetches
returned and whatever the insertion would have done. -/
theorem no_data_cycle_fails_without_statistics :
    ∀ (r4 r5 : Fetch) (ins : InsertOutcome) (store : StatsStore),
      r4 ≠ .authErr → r5 ≠ .authErr →
      asyncUpdateData .apiErr .apiErr .apiErr r4 r5 ins store
        = (.noData, store) := by
  intro r4 r5 ins store h4 h5
  cases r4 <;> cases r5 <;> simp_all [asyncUpdateData, fetchField]

theorem no_data_cycle_fails_without_statistics_witness :
    (Fetch.ok (some ⟨[⟨19723, 50⟩]⟩) ≠ Fetch.authErr
      ∧ Fetch.apiErr ≠ Fetch.authErr)
    ∧ asyncUpdateData .apiErr .apiErr .apiErr (.ok (some ⟨[⟨19723, 50⟩]⟩))
        .apiErr .ok ⟨[], []⟩ = (.noData, ⟨[], []⟩) :=
  ⟨⟨by decide, by decide⟩,
   no_data_cycle_fails_without_statistics (.ok (some ⟨[⟨19723, 50⟩]⟩))
     .apiErr .ok ⟨[], []⟩ (by decide) (by decide)⟩

/-- C5: an authentication error raised by any one of the five fetches
ends the cycle as an authentication failure — whatever the later fetch
outcomes would have been, so the remaining fetches cannot influence the
cycle — and that failure is distinct from the no-data failure. -/
theorem auth_error_aborts_cycle :
    ∀ (r1 r2 r3 r4 r5 : Fetch) (ins : InsertOutcome) (store : StatsStore),
      (r1 = .authErr
        ∨ r1 ≠ .authErr ∧ r2 = .authErr
        ∨ r1 ≠ .authErr ∧ r2 ≠ .authErr ∧ r3 = .authErr
        ∨ r1 ≠ .authErr ∧ r2 ≠ .authErr ∧ r3 ≠ .authErr ∧ r4 = .authErr
        ∨ r1 ≠ .authErr ∧ r2 ≠ .authErr ∧ r3 ≠ .authErr ∧ r4 ≠ .authErr
            ∧ r5 = .authErr) →
      asyncUpdateData r1 r2 r3 r4 r5 ins store = (.authFailed, store)
        ∧ CycleResult.authFailed ≠ CycleResult.noData := by
  intro r1 r2 r3 r4 r5 ins store h
  refine ⟨?_, by decide⟩
  rcases h with h | ⟨h1, h⟩ | ⟨h1, h2, h⟩ | ⟨h1, h2, h3, h⟩ | ⟨h1, h2, h3, h4, h⟩ <;>
    subst h
  · simp [asyncUpdateData, fetchField]
  · cases r1 <;> simp_all [asyncUpdateData, fetchField]
  · cases r1 <;> cases r2 <;> simp_all [asyncUpdateData, fetchField]
  · cases r1 <;> cases r2 <;> cases r3 <;>
      simp_all [asyncUpdateData, fetchField]
  · cases r1 <;> cases r2 <;> cases r3 <;> cases r4 <;>
      simp_all [asyncUpdateData, fetchField]

theorem auth_error_aborts_cycle_witness :
    (Fetch.ok none ≠ Fetch.authErr ∧ (Fetch.authErr : Fetch) = Fetch.authErr)
    ∧ (asyncUpdateData (.ok none) .authErr (.ok (some ⟨[⟨19723, 5⟩]⟩))
          .apiErr (.ok none) .ok ⟨[], []⟩ = (.authFailed, ⟨[], []⟩)
      ∧ CycleResult.authFailed ≠ CycleResult.noData) :=
  ⟨⟨by decide, rfl⟩,
   auth_error_aborts_cycle (.ok none) .authErr (.ok (some ⟨[⟨19723, 5⟩]⟩))
     .apiErr (.ok none) .ok ⟨[], []⟩ (Or.inr (Or.inl ⟨by decide, rfl⟩))⟩

/-- C6: a token whose client exposes exactly one PRM goes straight to
entry creation with that PRM; more than one PRM goes to the selection
step; and creating an entry for an already-configured PRM aborts as
already configured instead of creating a duplicate. -/
theorem config_flow_prm_paths :
    ∀ (configured : List String) (token prm : String) (prms : List String),
      (prms = [prm] → prm ∉ configured →
        asyncStepUser configured token (.ok prms) = .createEntry token prm)
      ∧ (1 < prms.length →
        asyncStepUser configured token (.ok prms) = .showFormSelectPrm)
      ∧ (prm ∈ configured →
        createEntryStep configured token prm = .abortAlreadyConfigured) := by
  intro configured token prm prms
  refine ⟨?_, ?_, ?_⟩
  · intro hp hmem
    subst hp
    simp [asyncStepUser, createEntryStep, hmem]
  · intro hlen
    have hne : prms.length ≠ 1 := by omega
    simp [asyncStepUser, hne]
  · intro hmem
    simp [createEntryStep, hmem]

theorem config_flow_prm_paths_witness :
    (["12345"] = ["12345"] ∧ "12345" ∉ (["99999"] : List String)
      ∧ asyncStepUser ["99999"] "tok" (.ok ["12345"])
          = .createEntry "tok" "12345")
    ∧ (1 < (["11111", "22222"] : List String).length
      ∧ asyncStepUser ["99999"] "tok" (.ok ["11111", "22222"])
          = .showFormSelectPrm)
    ∧ ("99999" ∈ (["99999"] : List String)
      ∧ createEntryStep ["99999"] "tok" "99999" = .abortAlreadyConfigured) :=
  ⟨⟨rfl, by decide,
    (config_flow_prm_paths ["99999"] "tok" "12345" ["12345"]).1 rfl (by decide)⟩,
   ⟨by decide,
    (config_flow_prm_paths ["99999"] "tok" "12345" ["11111", "22222"]).2.1
      (by decide)⟩,
   ⟨by decide,
    (config_flow_prm_paths ["99999"] "tok" "99999" ["99999"]).2.2 (by decide)⟩⟩

/-- C7: a historical import over 2024-01-01 .. 2024-01-07 (days 19723
to 19729) with seven daily readings of 100 and no prior stored point
for either series emits exactly seven consumption points with states
100 and running sums 100, 200, ..., 700. -/
theorem import_fresh_range_sums :
    importStatisticsM none none
        (.ok (some ⟨[⟨19723, 100⟩, ⟨19724, 100⟩, ⟨19725, 100⟩, ⟨19726, 100⟩,
          ⟨19727, 100⟩, ⟨19728, 100⟩, ⟨19729, 100⟩]⟩))
        (.ok none)
      = .ok ([⟨1704067200, 100, 100⟩, ⟨1704153600, 100, 200⟩,
          ⟨1704240000, 100, 300⟩, ⟨1704326400, 100, 400⟩,
          ⟨1704412800, 100, 500⟩, ⟨1704499200, 100, 600⟩,
          ⟨1704585600, 100, 700⟩], []) := by
  rfl

/-- C8: the historical-import service defaults the optional end date to
today and proceeds to fetching exactly when start ≤ end ≤ today; any
range with start > end or end > today is rejected with a validation
error before any fetch. -/
theorem import_service_validates_range :
    ∀ (today start_date : Nat) (end_date? : Option Nat),
      (handleImportHistoricalData today start_date end_date?
          = .imported start_date (end_date?.getD today)
        ↔ start_date ≤ end_date?.getD today ∧ end_date?.getD today ≤ today)
      ∧ (end_date?.getD today < start_date ∨ today < end_date?.getD today →
          ∃ msg, handleImportHistoricalData today start_date end_date?
            = .validationError msg) := by
  intro today s e?
  by_cases h1 : s > e?.getD today
  · constructor
    · simp [handleImportHistoricalData, h1]
    · intro _
      exact ⟨"start_date must be before or equal to end_date",
        by simp [handleImportHistoricalData, h1]⟩
  · by_cases h2 : e?.getD today > today
    · constructor
      · simp [handleImportHistoricalData, h1, h2]
      · intro _
        exact ⟨"end_date cannot be in the future",
          by simp [handleImportHistoricalData, h1, h2]⟩
    · constructor
      · simp [handleImportHistoricalData, h1, h2]
        omega
      · intro h
        omega

theorem import_service_validates_range_witness :
    ((some 7 : Option Nat).getD 10 < 12 ∨ 10 < (some 7 : Option Nat).getD 10)
    ∧ ∃ msg, handleImportHistoricalData 10 12 (some 7)
        = .validationError msg :=
  ⟨by decide, (import_service_validates_range 10 12 (some 7)).2 (by decide)⟩

/-- C9: for every snapshot, each of the six sensor projections is
available exactly when its backing metering series is present in the
snapshot, whether or not that series holds any readings. -/
theorem sensor_available_iff_series_present :
    ∀ d : LinkyDataM,
      (sensorDescriptions.all fun desc =>
        desc.available_fn d == (backingSeries desc.key d).isSome) = true := by
  intro d
  simp [sensorDescriptions, backingSeries]

/-- C10: historical import applies no lower-bound skip: with prior
stored points `p` (consumption) and `q` (production), every fetched
reading of each series is emitted unconditionally, the accumulators
seeded from `p.sum` and `q.sum` — so re-importing a range at or before
the stored points adds those days' values to the sums again — and the
emit-everything loop yields one point per reading. -/
theorem import_statistics_no_lower_bound :
    (∀ (p q : StatPoint) (mc mp : MeteringDataM),
      importStatisticsM (some p) (some q) (.ok (some mc)) (.ok (some mp))
        = .ok (importAllReadings p.sum mc.interval_reading,
            importAllReadings q.sum mp.interval_reading))
    ∧ (∀ (s : Int) (rs : List Reading),
        (importAllReadings s rs).length = rs.length) := by
  constructor
  · intro p q mc mp
    simp [importStatisticsM, importFetch, processSeries_some,
      processReadings_none_eq_importAll]
  · intro s rs
    induction rs generalizing s with
    | nil => rfl
    | cons r rs ih => simp [importAllReadings, ih]

end Linky
